import Mathlib

/-!
Verification of `flow_motion_net.py` (Flow-Motion-Depth).

The development shallowly embeds the parts of the source the claims are
about:

* `FlowMotionNet.warp` (source lines 247-277) over exact rationals: the
  mesh grid, the flow-displaced grid, its normalization to [-1,1], the
  external bilinear sampler `grid_sample` (zero padding; the [-1,1] to
  pixel mapping follows the sampler contract of the spec, under which a
  normalized coordinate 2*v/(n-1) - 1 samples exactly at pixel v), and
  the two in-place mask-thresholding writes.
* `MotionNet.forward`'s final slicing/normalization step (lines 117-121)
  and the per-item body of `FlowMotionNet.get_motion` (lines 286-291)
  over the reals, with the external axis-angle-to-quaternion conversion
  (a division by the axis norm, which has no value on a zero axis,
  modelled as `Option`).
* the layer graph of `FlowMotionNet.forward` (lines 296-380) as a
  symbolic tensor-expression trace, together with a table of the
  convolution layers constructed in `__init__` (lines 130-239) and
  channel/spatial-shape semantics.
* the flat list of leaf modules of the network and the weight
  initialization loop of `__init__` (lines 241-245).
* the `conv_sizes` list mutation in `MotionNet.__init__` (lines 88-89).
-/

namespace FlowMotion

/-! ## Warper: `FlowMotionNet.warp` (lines 247-277), over ℚ -/

/-- Pixel fetch with zero padding: `grid_sample(..., padding_mode=zeros)`
reads 0 outside the image bounds. -/
def pixAt (H W : ℕ) (img : Fin H → Fin W → ℚ) (y x : ℤ) : ℚ :=
  if hy : 0 ≤ y ∧ y < (H : ℤ) then
    if hx : 0 ≤ x ∧ x < (W : ℤ) then
      img ⟨y.toNat, by omega⟩ ⟨x.toNat, by omega⟩
    else 0
  else 0

/-- Bilinear interpolation of `img` at pixel coordinates `(py, px)`:
the four neighbouring pixels weighted by the fractional parts. -/
def bilinear (H W : ℕ) (img : Fin H → Fin W → ℚ) (py px : ℚ) : ℚ :=
  (1 - (py - ⌊py⌋)) * ((1 - (px - ⌊px⌋)) * pixAt H W img ⌊py⌋ ⌊px⌋
      + (px - ⌊px⌋) * pixAt H W img ⌊py⌋ (⌊px⌋ + 1))
    + (py - ⌊py⌋) * ((1 - (px - ⌊px⌋)) * pixAt H W img (⌊py⌋ + 1) ⌊px⌋
      + (px - ⌊px⌋) * pixAt H W img (⌊py⌋ + 1) (⌊px⌋ + 1))

/-- Sampler of `grid_sample`: a normalized coordinate `u` in [-1,1] maps
to pixel coordinate `(u + 1) * (n - 1) / 2`, so that the grid value
`2 * v / (n - 1) - 1` built by `warp` samples exactly at pixel `v`.
This is the external sampler's contract as the spec documents it
(output pixel (x,y) = bilinear sample of T at (x + F_x, y + F_y)). -/
def sampleAt (H W : ℕ) (img : Fin H → Fin W → ℚ) (uy ux : ℚ) : ℚ :=
  bilinear H W img ((uy + 1) * ((H : ℚ) - 1) / 2) ((ux + 1) * ((W : ℚ) - 1) / 2)

/-- Line 266: `vgrid[:,0] = 2.0 * vgrid[:,0] / max(W-1,1) - 1.0`. -/
def vgridXn (W : ℕ) (vx : ℚ) : ℚ := 2 * vx / max ((W : ℚ) - 1) 1 - 1

/-- Line 267: `vgrid[:,1] = 2.0 * vgrid[:,1] / max(H-1,1) - 1.0`. -/
def vgridYn (H : ℕ) (vy : ℚ) : ℚ := 2 * vy / max ((H : ℚ) - 1) 1 - 1

/-- Line 270: `output = grid_sample(x, vgrid)` where
`vgrid = grid + flo` and `grid` is the identity mesh (lines 255-263). -/
def warpSample (B C H W : ℕ) (x : Fin B → Fin C → Fin H → Fin W → ℚ)
    (flo : Fin B → Fin 2 → Fin H → Fin W → ℚ)
    (b : Fin B) (c : Fin C) (i : Fin H) (j : Fin W) : ℚ :=
  sampleAt H W (x b c)
    (vgridYn H ((i : ℚ) + flo b 1 i j))
    (vgridXn W ((j : ℚ) + flo b 0 i j))

/-- Lines 271-272: `mask = grid_sample(torch.ones(x.size()), vgrid)`.
The ones tensor is constant across channels, so the sampled mask value
is the same for every channel; it is modelled channel-free. -/
def warpMaskRaw (B H W : ℕ) (flo : Fin B → Fin 2 → Fin H → Fin W → ℚ)
    (b : Fin B) (i : Fin H) (j : Fin W) : ℚ :=
  sampleAt H W (fun _ _ => 1)
    (vgridYn H ((i : ℚ) + flo b 1 i j))
    (vgridXn W ((j : ℚ) + flo b 0 i j))

/-- Line 274: `mask[mask < 0.9999] = 0`. -/
def maskStep1 (m : ℚ) : ℚ := if m < 9999/10000 then 0 else m

/-- Line 275: `mask[mask > 0] = 1`. -/
def maskStep2 (m : ℚ) : ℚ := if 0 < m then 1 else m

/-- The mask entry after both in-place thresholding writes. -/
def warpMask (B H W : ℕ) (flo : Fin B → Fin 2 → Fin H → Fin W → ℚ)
    (b : Fin B) (i : Fin H) (j : Fin W) : ℚ :=
  maskStep2 (maskStep1 (warpMaskRaw B H W flo b i j))

/-- Line 277: `return output * mask`, one entry of `FlowMotionNet.warp`. -/
def warp (B C H W : ℕ) (x : Fin B → Fin C → Fin H → Fin W → ℚ)
    (flo : Fin B → Fin 2 → Fin H → Fin W → ℚ)
    (b : Fin B) (c : Fin C) (i : Fin H) (j : Fin W) : ℚ :=
  warpSample B C H W x flo b c i j * warpMask B H W flo b i j

/-! ## Motion head output and motion decoding (lines 103-121, 279-294), over ℝ -/

/-- Triple of reals, one slice of a 6-element motion vector. -/
structure Vec3 where
  x : ℝ
  y : ℝ
  z : ℝ

/-- Sum of squares of the three components. -/
def sqNorm (v : Vec3) : ℝ := v.x * v.x + v.y * v.y + v.z * v.z

/-- Euclidean norm (`np.linalg.norm` / `torch` 2-norm). -/
noncomputable def l2norm (v : Vec3) : ℝ := Real.sqrt (sqNorm v)

/-- Epsilon of `torch.nn.functional.normalize` (default `eps=1e-12`). -/
noncomputable def normalizeEps : ℝ := 1 / 10 ^ 12

/-- One row of `F.normalize(·)` with `p=2, dim=1`: each component divided
by `max(norm, eps)`. -/
noncomputable def fNormalize (v : Vec3) : Vec3 :=
  ⟨v.x / max (l2norm v) normalizeEps,
   v.y / max (l2norm v) normalizeEps,
   v.z / max (l2norm v) normalizeEps⟩

/-- A 6-element motion vector split as the source slices it:
`rot` holds components 0,1,2 (the slice `[:, :3]`, consumed by
`get_motion` as the rotation axis) and `tra` holds components 3,4,5
(the slice `[:, 3:]`, consumed by `get_motion` as the translation). -/
structure MotionVec where
  rot : Vec3
  tra : Vec3

/-- Lines 118-120 of `MotionNet.forward`: given one row `predict` of the
final linear layer's output, the returned row is
`result[:3] = predict[:3]` and `result[3:] = F.normalize(predict[3:])`. -/
noncomputable def motionNetResult (predict : MotionVec) : MotionVec :=
  ⟨predict.rot, fNormalize predict.tra⟩

/-- Quaternion as scalar part `w` and vector part `(x, y, z)`. -/
structure Quat where
  w : ℝ
  x : ℝ
  y : ℝ
  z : ℝ

open Classical in
/-- The external axis-angle-to-quaternion conversion
(`Quaternion(axis=a, radians=θ)`): the axis is divided by its norm and
scaled by `sin(θ/2)`, with scalar part `cos(θ/2)`.  The division by the
norm has no value on a zero axis (the spec: implementers must guard the
conversion's division-by-norm; the shipped library raises there), so the
conversion returns `none` exactly when the axis has zero magnitude. -/
noncomputable def quatFromAxisAngle (a : Vec3) (theta : ℝ) : Option Quat :=
  if sqNorm a = 0 then none
  else
    some ⟨Real.cos (theta / 2),
          Real.sin (theta / 2) * (a.x / Real.sqrt (sqNorm a)),
          Real.sin (theta / 2) * (a.y / Real.sqrt (sqNorm a)),
          Real.sin (theta / 2) * (a.z / Real.sqrt (sqNorm a))⟩

/-- Row-major 3x3 real matrix. -/
structure Mat3 where
  m00 : ℝ
  m01 : ℝ
  m02 : ℝ
  m10 : ℝ
  m11 : ℝ
  m12 : ℝ
  m20 : ℝ
  m21 : ℝ
  m22 : ℝ

/-- Standard rotation matrix of a unit quaternion (`q.rotation_matrix`). -/
def quatRotationMatrix (q : Quat) : Mat3 :=
  ⟨1 - 2 * (q.y * q.y + q.z * q.z), 2 * (q.x * q.y - q.z * q.w), 2 * (q.x * q.z + q.y * q.w),
   2 * (q.x * q.y + q.z * q.w), 1 - 2 * (q.x * q.x + q.z * q.z), 2 * (q.y * q.z - q.x * q.w),
   2 * (q.x * q.z - q.y * q.w), 2 * (q.y * q.z + q.x * q.w), 1 - 2 * (q.x * q.x + q.y * q.y)⟩

/-- One iteration of the loop in `FlowMotionNet.get_motion`
(lines 286-291): `q = Quaternion(axis=v[:3], radians=norm(v[:3]))`,
`Rs[i] = q.rotation_matrix`, `Ts[i] = v[3:]`.  The result is `none`
when the unguarded axis-angle conversion fails. -/
noncomputable def getMotionItem (v : MotionVec) : Option (Mat3 × Vec3) :=
  (quatFromAxisAngle v.rot (l2norm v.rot)).map fun q =>
    (quatRotationMatrix q, v.tra)

/-! ## Convolution-layer table of `FlowMotionNet.__init__` (lines 130-239) -/

/-- Names of the convolution / transposed-convolution modules of
`FlowMotionNet`, as the attributes of `__init__`. -/
inductive LName where
  | conv1a | conv1aa | conv1b
  | conv2a | conv2aa | conv2b
  | conv3a | conv3aa | conv3b
  | conv4a | conv4aa | conv4b
  | conv5a | conv5aa | conv5b
  | conv5_0 | conv5_1 | conv5_2 | conv5_3 | conv5_4
  | conv4_0 | conv4_1 | conv4_2 | conv4_3 | conv4_4
  | conv3_0 | conv3_1 | conv3_2 | conv3_3 | conv3_4
  | conv2_0 | conv2_1 | conv2_2 | conv2_3 | conv2_4
  | conv1_0 | conv1_1 | conv1_2 | conv1_3 | conv1_4
  | predict_flow5 | predict_flow4 | predict_flow3 | predict_flow2 | predict_flow1
  | upfeat5 | upfeat4 | upfeat3 | upfeat2
deriving DecidableEq

/-- Static description of one convolution block: a `Conv2d` (or
`ConvTranspose2d` when `transposed`), optionally followed by a
`BatchNorm2d` and by a `LeakyReLU` of the recorded negative slope, as
built by `conv_norm` (lines 8-31), `predict_flow` (lines 33-35) and
`deconv` (lines 37-39). -/
structure ConvSpec where
  inC : ℕ
  outC : ℕ
  kernel : ℕ
  stride : ℕ
  padding : ℕ
  transposed : Bool
  hasBias : Bool
  batchNorm : Bool
  leakySlope : Option ℚ
deriving DecidableEq

/-- Shorthand for `conv_norm` with the default `bn = True`:
`Conv2d(bias=False) + BatchNorm2d + LeakyReLU(0.1)`. -/
def convNormBn (inC outC stride : ℕ) : ConvSpec :=
  ⟨inC, outC, 3, stride, 1, false, false, true, some (1/10)⟩

/-- Shorthand for `conv_norm` with `bn = False`:
`Conv2d(bias=True) + LeakyReLU(0.1)`. -/
def convNormNoBn (inC outC stride : ℕ) : ConvSpec :=
  ⟨inC, outC, 3, stride, 1, false, true, false, some (1/10)⟩

/-- Shorthand for `predict_flow`: a lone
`Conv2d(in, 2, kernel_size=3, stride=1, padding=1, bias=True)`,
with no following nonlinearity. -/
def predictFlowSpec (inC : ℕ) : ConvSpec :=
  ⟨inC, 2, 3, 1, 1, false, true, false, none⟩

/-- Shorthand for `deconv`: a lone
`ConvTranspose2d(in, out, kernel_size=4, stride=2, padding=1, bias=True)`. -/
def deconvSpec (inC outC : ℕ) : ConvSpec :=
  ⟨inC, outC, 4, 2, 1, true, true, false, none⟩

/-- The layer table of `FlowMotionNet.__init__`.  The decoder widths
mirror the source arithmetic: with `nd = (2*4+1)^2 = 81` and
`dd = cumsum [128, 96, 64, 32, 32] = [128, 224, 288, 320, 352]`,
level 5 has `od = 81 + 128 = 209`, level 4 `od = 81 + 96 + 4 = 181`,
level 3 `od = 81 + 64 + 4 = 149`; level 2 uses `nd = 9*5 + 4 = 49`,
`od = 49 + 32 + 4 = 85`, `dd = cumsum [96, 64, 64, 32, 32]`; level 1
uses `nd = 7*3 + 4 = 25`, `od = 25 + 16 + 4 = 45`,
`dd = cumsum [64, 64, 64, 32, 32]`. -/
def layerSpecs : LName → ConvSpec
  | .conv1a => convNormBn 3 16 2
  | .conv1aa => convNormBn 16 16 1
  | .conv1b => convNormBn 16 16 1
  | .conv2a => convNormBn 16 32 2
  | .conv2aa => convNormBn 32 32 1
  | .conv2b => convNormBn 32 32 1
  | .conv3a => convNormBn 32 64 2
  | .conv3aa => convNormBn 64 64 1
  | .conv3b => convNormBn 64 64 1
  | .conv4a => convNormBn 64 96 2
  | .conv4aa => convNormBn 96 96 1
  | .conv4b => convNormBn 96 96 1
  | .conv5a => convNormBn 96 128 2
  | .conv5aa => convNormBn 128 128 1
  | .conv5b => convNormBn 128 128 1
  | .conv5_0 => convNormNoBn 209 128 1
  | .conv5_1 => convNormNoBn (209 + 128) 96 1
  | .conv5_2 => convNormNoBn (209 + 224) 64 1
  | .conv5_3 => convNormNoBn (209 + 288) 32 1
  | .conv5_4 => convNormNoBn (209 + 320) 32 1
  | .conv4_0 => convNormNoBn 181 128 1
  | .conv4_1 => convNormNoBn (181 + 128) 96 1
  | .conv4_2 => convNormNoBn (181 + 224) 64 1
  | .conv4_3 => convNormNoBn (181 + 288) 32 1
  | .conv4_4 => convNormNoBn (181 + 320) 32 1
  | .conv3_0 => convNormNoBn 149 128 1
  | .conv3_1 => convNormNoBn (149 + 128) 96 1
  | .conv3_2 => convNormNoBn (149 + 224) 64 1
  | .conv3_3 => convNormNoBn (149 + 288) 32 1
  | .conv3_4 => convNormNoBn (149 + 320) 32 1
  | .conv2_0 => convNormNoBn 85 96 1
  | .conv2_1 => convNormNoBn (85 + 96) 64 1
  | .conv2_2 => convNormNoBn (85 + 160) 64 1
  | .conv2_3 => convNormNoBn (85 + 224) 32 1
  | .conv2_4 => convNormNoBn (85 + 256) 32 1
  | .conv1_0 => convNormNoBn 45 64 1
  | .conv1_1 => convNormNoBn (45 + 64) 64 1
  | .conv1_2 => convNormNoBn (45 + 128) 64 1
  | .conv1_3 => convNormNoBn (45 + 192) 32 1
  | .conv1_4 => convNormNoBn (45 + 224) 32 1
  | .predict_flow5 => predictFlowSpec (209 + 352)
  | .predict_flow4 => predictFlowSpec (181 + 352)
  | .predict_flow3 => predictFlowSpec (149 + 352)
  | .predict_flow2 => predictFlowSpec (85 + 288)
  | .predict_flow1 => predictFlowSpec (45 + 256)
  | .upfeat5 => deconvSpec (209 + 352) 2
  | .upfeat4 => deconvSpec (181 + 352) 2
  | .upfeat3 => deconvSpec (149 + 352) 2
  | .upfeat2 => deconvSpec (85 + 288) 2

/-! ## Symbolic tensor-expression trace of `FlowMotionNet.forward`
(lines 296-380) -/

/-- Symbolic tensor expression: one node per operation of `forward`.
`torch.cat((a, b, c, ...), 1)` is modelled by right-nested binary
`cat`; `upBilinear2` is `nn.UpsamplingBilinear2d(scale_factor=2)` (the
`deconv5`..`deconv2` attributes); `scale q` is elementwise
multiplication by the scalar `q`; `motionHead k x flow` is
`self.motion_k(x, flow)`; `motionR`/`motionT` are the two results of
`self.get_motion` on a predicted motion vector. -/
inductive TExpr where
  | im1 : TExpr
  | im2 : TExpr
  | layer : LName → TExpr → TExpr
  | corr : TExpr → TExpr → TExpr
  | epiCorr : ℕ → TExpr → TExpr → TExpr → TExpr → TExpr → TExpr
  | leaky : TExpr → TExpr
  | warpT : TExpr → TExpr → TExpr
  | cat : TExpr → TExpr → TExpr
  | upBilinear2 : TExpr → TExpr
  | scale : ℚ → TExpr → TExpr
  | motionHead : ℕ → TExpr → TExpr → TExpr
  | motionR : TExpr → TExpr
  | motionT : TExpr → TExpr
deriving DecidableEq

/-- Channel width of a tensor expression.  `CorrelationLayer(4)`
produces `(2*4+1)^2 = 81` channels; `EpipolarCorrelationLayer` at
level 2 produces `9*5 + 4 = 49` channels and at level 1 `7*3 + 4 = 25`
channels (the window plus 4 auxiliary channels, matching the `nd`
arithmetic of lines 203 and 224); a motion head outputs a 6-vector. -/
def channels : TExpr → ℕ
  | .im1 => 3
  | .im2 => 3
  | .layer n _ => (layerSpecs n).outC
  | .corr _ _ => 81
  | .epiCorr lvl _ _ _ _ _ => if lvl = 2 then 49 else 25
  | .leaky x' => channels x'
  | .warpT x' _ => channels x'
  | .cat a b => channels a + channels b
  | .upBilinear2 x' => channels x'
  | .scale _ x' => channels x'
  | .motionHead _ _ _ => 6
  | .motionR _ => 0
  | .motionT _ => 0

/-- Output length of `Conv2d` along one spatial dimension. -/
def convOut (n k s p : ℕ) : ℕ := (n + 2 * p - k) / s + 1

/-- Output length of `ConvTranspose2d` along one spatial dimension. -/
def deconvOut (n k s p : ℕ) : ℕ := (n - 1) * s - 2 * p + k

/-- Spatial height/width of one dimension after a layer. -/
def layerDim (sp : ConvSpec) (n : ℕ) : ℕ :=
  if sp.transposed then deconvOut n sp.kernel sp.stride sp.padding
  else convOut n sp.kernel sp.stride sp.padding

/-- Input height of the configured network: the level-1 motion head is
built with `H = 128` (line 238) and level 1 lives at half the input
resolution, so the input is 256 pixels high. -/
def inputH : ℕ := 256

/-- Input width of the configured network: the level-1 motion head is
built with `W = 160` (line 239), so the input is 320 pixels wide. -/
def inputW : ℕ := 320

/-- Spatial size `(height, width)` of a tensor expression at the
configured input resolution.  Correlation, warping, concatenation,
`LeakyReLU` and scalar scaling preserve the (common) spatial size of
their tensor arguments; bilinear upsampling doubles it. -/
def spatial : TExpr → ℕ × ℕ
  | .im1 => (inputH, inputW)
  | .im2 => (inputH, inputW)
  | .layer n x' => (layerDim (layerSpecs n) (spatial x').1,
                    layerDim (layerSpecs n) (spatial x').2)
  | .corr a _ => spatial a
  | .epiCorr _ a _ _ _ _ => spatial a
  | .leaky x' => spatial x'
  | .warpT x' _ => spatial x'
  | .cat a _ => spatial a
  | .upBilinear2 x' => (2 * (spatial x').1, 2 * (spatial x').2)
  | .scale _ x' => spatial x'
  | .motionHead _ _ _ => (1, 1)
  | .motionR _ => (1, 1)
  | .motionT _ => (1, 1)

/-- Line 300: `c11 = self.conv1b(self.conv1aa(self.conv1a(im1)))`. -/
def c11 : TExpr := .layer .conv1b (.layer .conv1aa (.layer .conv1a .im1))

/-- Line 301, same pyramid modules applied to the second image. -/
def c21 : TExpr := .layer .conv1b (.layer .conv1aa (.layer .conv1a .im2))

/-- Line 302. -/
def c12 : TExpr := .layer .conv2b (.layer .conv2aa (.layer .conv2a c11))

/-- Line 303. -/
def c22 : TExpr := .layer .conv2b (.layer .conv2aa (.layer .conv2a c21))

/-- Line 304. -/
def c13 : TExpr := .layer .conv3b (.layer .conv3aa (.layer .conv3a c12))

/-- Line 305. -/
def c23 : TExpr := .layer .conv3b (.layer .conv3aa (.layer .conv3a c22))

/-- Line 306. -/
def c14 : TExpr := .layer .conv4b (.layer .conv4aa (.layer .conv4a c13))

/-- Line 307. -/
def c24 : TExpr := .layer .conv4b (.layer .conv4aa (.layer .conv4a c23))

/-- Line 308. -/
def c15 : TExpr := .layer .conv5b (.layer .conv5aa (.layer .conv5a c14))

/-- Line 309. -/
def c25 : TExpr := .layer .conv5b (.layer .conv5aa (.layer .conv5a c24))

/-- Lines 311-312: `corr5 = leakyRELU(self.corr(c15, c25))`. -/
def corr5E : TExpr := .leaky (.corr c15 c25)

/-- Line 313: `x = torch.cat((corr5, c15), 1)`. -/
def x5s0 : TExpr := .cat corr5E c15

/-- Line 314: `x = torch.cat((self.conv5_0(x), x), 1)`. -/
def x5s1 : TExpr := .cat (.layer .conv5_0 x5s0) x5s0

/-- Line 315. -/
def x5s2 : TExpr := .cat (.layer .conv5_1 x5s1) x5s1

/-- Line 316. -/
def x5s3 : TExpr := .cat (.layer .conv5_2 x5s2) x5s2

/-- Line 317. -/
def x5s4 : TExpr := .cat (.layer .conv5_3 x5s3) x5s3

/-- Line 318. -/
def x5s5 : TExpr := .cat (.layer .conv5_4 x5s4) x5s4

/-- Line 319: `flow5 = self.predict_flow5(x)`. -/
def flow5E : TExpr := .layer .predict_flow5 x5s5

/-- Line 320: `up_flow5 = self.deconv5(flow5) * 2.0`, with `deconv5 =
nn.UpsamplingBilinear2d(scale_factor=2)` (line 170). -/
def upFlow5E : TExpr := .scale 2 (.upBilinear2 flow5E)

/-- Line 321: `up_feat5 = self.upfeat5(x)`. -/
def upFeat5E : TExpr := .layer .upfeat5 x5s5

/-- Line 323: `warp4 = self.warp(c24, up_flow5)`. -/
def warp4E : TExpr := .warpT c24 upFlow5E

/-- Lines 324-325: `corr4 = leakyRELU(self.corr(c14, warp4))`. -/
def corr4E : TExpr := .leaky (.corr c14 warp4E)

/-- Line 326: `x = torch.cat((corr4, c14, up_flow5, up_feat5), 1)`. -/
def x4s0 : TExpr := .cat corr4E (.cat c14 (.cat upFlow5E upFeat5E))

/-- Line 327. -/
def x4s1 : TExpr := .cat (.layer .conv4_0 x4s0) x4s0

/-- Line 328. -/
def x4s2 : TExpr := .cat (.layer .conv4_1 x4s1) x4s1

/-- Line 329. -/
def x4s3 : TExpr := .cat (.layer .conv4_2 x4s2) x4s2

/-- Line 330. -/
def x4s4 : TExpr := .cat (.layer .conv4_3 x4s3) x4s3

/-- Line 331. -/
def x4s5 : TExpr := .cat (.layer .conv4_4 x4s4) x4s4

/-- Line 332. -/
def flow4E : TExpr := .layer .predict_flow4 x4s5

/-- Line 333. -/
def upFlow4E : TExpr := .scale 2 (.upBilinear2 flow4E)

/-- Line 334. -/
def upFeat4E : TExpr := .layer .upfeat4 x4s5

/-- Line 336: `warp3 = self.warp(c23, up_flow4)`. -/
def warp3E : TExpr := .warpT c23 upFlow4E

/-- Lines 337-338. -/
def corr3E : TExpr := .leaky (.corr c13 warp3E)

/-- Line 340: `x = torch.cat((corr3, c13, up_flow4, up_feat4), 1)`. -/
def x3s0 : TExpr := .cat corr3E (.cat c13 (.cat upFlow4E upFeat4E))

/-- Line 341. -/
def x3s1 : TExpr := .cat (.layer .conv3_0 x3s0) x3s0

/-- Line 342. -/
def x3s2 : TExpr := .cat (.layer .conv3_1 x3s1) x3s1

/-- Line 343. -/
def x3s3 : TExpr := .cat (.layer .conv3_2 x3s2) x3s2

/-- Line 344. -/
def x3s4 : TExpr := .cat (.layer .conv3_3 x3s3) x3s3

/-- Line 345. -/
def x3s5 : TExpr := .cat (.layer .conv3_4 x3s4) x3s4

/-- Line 346. -/
def flow3E : TExpr := .layer .predict_flow3 x3s5

/-- Line 347. -/
def upFlow3E : TExpr := .scale 2 (.upBilinear2 flow3E)

/-- Line 348. -/
def upFeat3E : TExpr := .layer .upfeat3 x3s5

/-- Line 349: `predicted_motion3 = self.motion_3(x, flow3)`. -/
def motion3E : TExpr := .motionHead 3 x3s5 flow3E

/-- Lines 350, 352-353: `Rs3, Ts3 = self.get_motion(predicted_motion3)`
then `corr2 = leakyRELU(self.epi_corr2(c12, c22, Rs3, Ts3, up_flow3))`. -/
def corr2E : TExpr :=
  .leaky (.epiCorr 2 c12 c22 (.motionR motion3E) (.motionT motion3E) upFlow3E)

/-- Line 354: `x = torch.cat((corr2, c12, up_flow3, up_feat3), 1)`. -/
def x2s0 : TExpr := .cat corr2E (.cat c12 (.cat upFlow3E upFeat3E))

/-- Line 355. -/
def x2s1 : TExpr := .cat (.layer .conv2_0 x2s0) x2s0

/-- Line 356. -/
def x2s2 : TExpr := .cat (.layer .conv2_1 x2s1) x2s1

/-- Line 357. -/
def x2s3 : TExpr := .cat (.layer .conv2_2 x2s2) x2s2

/-- Line 358. -/
def x2s4 : TExpr := .cat (.layer .conv2_3 x2s3) x2s3

/-- Line 359. -/
def x2s5 : TExpr := .cat (.layer .conv2_4 x2s4) x2s4

/-- Line 360. -/
def flow2E : TExpr := .layer .predict_flow2 x2s5

/-- Line 361. -/
def upFlow2E : TExpr := .scale 2 (.upBilinear2 flow2E)

/-- Line 362. -/
def upFeat2E : TExpr := .layer .upfeat2 x2s5

/-- Line 363. -/
def motion2E : TExpr := .motionHead 2 x2s5 flow2E

/-- Lines 364, 366-367: `Rs2, Ts2 = self.get_motion(predicted_motion2)`
then `corr1 = leakyRELU(self.epi_corr1(c11, c21, Rs2, Ts2, up_flow2))`. -/
def corr1E : TExpr :=
  .leaky (.epiCorr 1 c11 c21 (.motionR motion2E) (.motionT motion2E) upFlow2E)

/-- Line 368: `x = torch.cat((corr1, c11, up_flow2, up_feat2), 1)`. -/
def x1s0 : TExpr := .cat corr1E (.cat c11 (.cat upFlow2E upFeat2E))

/-- Line 369. -/
def x1s1 : TExpr := .cat (.layer .conv1_0 x1s0) x1s0

/-- Line 370. -/
def x1s2 : TExpr := .cat (.layer .conv1_1 x1s1) x1s1

/-- Line 371. -/
def x1s3 : TExpr := .cat (.layer .conv1_2 x1s2) x1s2

/-- Line 372. -/
def x1s4 : TExpr := .cat (.layer .conv1_3 x1s3) x1s3

/-- Line 373. -/
def x1s5 : TExpr := .cat (.layer .conv1_4 x1s4) x1s4

/-- Line 375: `flow1 = self.predict_flow1(x)`. -/
def flow1E : TExpr := .layer .predict_flow1 x1s5

/-- Line 376: `predicted_motion1 = self.motion_1(x, flow1)`. -/
def motion1E : TExpr := .motionHead 1 x1s5 flow1E

/-- Line 378: `flows = [flow1, flow2, flow3, flow4, flow5]`. -/
def forwardFlows : List TExpr := [flow1E, flow2E, flow3E, flow4E, flow5E]

/-- Line 379: `motions = [predicted_motion1, predicted_motion2,
predicted_motion3]`. -/
def forwardMotions : List TExpr := [motion1E, motion2E, motion3E]

/-! ## Leaf modules and the weight-initialization loop (lines 241-245) -/

/-- Kinds of leaf modules appearing in `self.modules()`. -/
inductive MKind where
  | conv2d
  | convT
  | batchNorm2d
  | leakyRelu
  | linear
  | upsample
  | corrOp
deriving DecidableEq

/-- One leaf module with its parameter-initialization state:
`kaimingFanIn` records that `nn.init.kaiming_normal_(weight, mode =
fan_in)` has been applied, `biasZeroed` that `bias.data.zero_()` has. -/
structure PModule where
  kind : MKind
  hasBias : Bool
  kaimingFanIn : Bool
  biasZeroed : Bool
deriving DecidableEq

/-- Leaf modules of one `conv_norm` block (lines 8-31): with `bn` a
bias-free `Conv2d` plus `BatchNorm2d` plus `LeakyReLU`, without `bn` a
biased `Conv2d` plus `LeakyReLU`. -/
def convNormMods (bn : Bool) : List PModule :=
  if bn then
    [⟨.conv2d, false, false, false⟩, ⟨.batchNorm2d, true, false, false⟩,
     ⟨.leakyRelu, false, false, false⟩]
  else
    [⟨.conv2d, true, false, false⟩, ⟨.leakyRelu, false, false, false⟩]

/-- Leaf module of one `predict_flow` head (lines 33-35). -/
def predictFlowMods : List PModule := [⟨.conv2d, true, false, false⟩]

/-- Leaf module of one `deconv` (lines 37-39): a biased
`ConvTranspose2d`. -/
def deconvMods : List PModule := [⟨.convT, true, false, false⟩]

/-- Leaf module of one `nn.UpsamplingBilinear2d`. -/
def upsampleMods : List PModule := [⟨.upsample, false, false, false⟩]

/-- Leaf module of one external correlation layer (no convolution
parameters of its own). -/
def corrMods : List PModule := [⟨.corrOp, false, false, false⟩]

/-- Leaf modules of `MotionNet.get_conv_block` (lines 45-64): two
biased stride-2 convolutions, each followed by a `LeakyReLU`. -/
def motionConvBlockMods : List PModule :=
  [⟨.conv2d, true, false, false⟩, ⟨.leakyRelu, false, false, false⟩,
   ⟨.conv2d, true, false, false⟩, ⟨.leakyRelu, false, false, false⟩]

/-- Leaf modules of `MotionNet.get_linear_block` (lines 66-70). -/
def motionLinearBlockMods : List PModule :=
  [⟨.linear, true, false, false⟩, ⟨.leakyRelu, false, false, false⟩]

/-- Leaf modules of one `MotionNet` (lines 72-101): the `shrink`
projection (`conv_norm` with `bn = False`, line 88), one conv block per
consecutive pair in `conv_sizes`, one linear block per consecutive pair
in `lin_sizes`, and the final `last_layer` linear (line 101). -/
def motionNetMods (nConvBlocks nLinBlocks : ℕ) : List PModule :=
  convNormMods false ++ (List.replicate nConvBlocks motionConvBlockMods).flatten
    ++ (List.replicate nLinBlocks motionLinearBlockMods).flatten
    ++ [⟨.linear, true, false, false⟩]

/-- All leaf modules of `FlowMotionNet` in construction order
(lines 136-239): the 15 pyramid `conv_norm` blocks, the correlation
layer and the shared `LeakyReLU`, then per level the five decoder
`conv_norm` blocks, the flow head, the bilinear upsampler and the
`upfeat` transposed convolution (levels 5 and 4 and 3 and 2; level 1
has no upsampler), the epipolar correlation layers, and the three
motion heads `motion_3` (3 conv blocks, 2 linear blocks), `motion_2`
(4 conv blocks) and `motion_1` (5 conv blocks).  PyTorch's
`self.modules()` yields all of these recursively, so the loop of
lines 241-245 visits every one of them. -/
def flowMotionNetMods : List PModule :=
  (List.replicate 15 (convNormMods true)).flatten
    ++ corrMods
    ++ [⟨.leakyRelu, false, false, false⟩]
    ++ (List.replicate 5 (convNormMods false)).flatten ++ predictFlowMods
    ++ upsampleMods ++ deconvMods
    ++ (List.replicate 5 (convNormMods false)).flatten ++ predictFlowMods
    ++ upsampleMods ++ deconvMods
    ++ (List.replicate 5 (convNormMods false)).flatten ++ predictFlowMods
    ++ upsampleMods ++ deconvMods
    ++ motionNetMods 3 2
    ++ corrMods
    ++ (List.replicate 5 (convNormMods false)).flatten ++ predictFlowMods
    ++ upsampleMods ++ deconvMods
    ++ motionNetMods 4 2
    ++ corrMods
    ++ (List.replicate 5 (convNormMods false)).flatten ++ predictFlowMods
    ++ motionNetMods 5 2

/-- Lines 242-245: for every module that is a `Conv2d` or a
`ConvTranspose2d`, apply `nn.init.kaiming_normal_(m.weight.data,
mode=fan_in)` and, when the module has a bias, `m.bias.data.zero_()`;
every other module is left untouched. -/
def initModule (m : PModule) : PModule :=
  if m.kind = .conv2d ∨ m.kind = .convT then
    ⟨m.kind, m.hasBias, true, m.hasBias || m.biasZeroed⟩
  else m

/-- The module list after the initialization loop of lines 241-245. -/
def initializedMods : List PModule := flowMotionNetMods.map initModule

/-! ## The `conv_sizes` mutation in `MotionNet.__init__` (lines 88-89) -/

/-- Lines 88-89: after `self.shrink = conv_norm(conv_sizes[0], 32, ...)`
the constructor executes `conv_sizes[0] = 32 + 4`, an in-place write to
the very list object the caller passed in.  The function returns the
caller's list as it stands after the constructor. -/
def motionNetInitConvSizes : List ℕ → List ℕ
  | [] => []
  | _ :: rest => (32 + 4) :: rest

/-! ## Warper lemmas -/

/-- Evaluation of `pixAt` inside the image bounds. -/
theorem pixAt_pos (H W : ℕ) (img : Fin H → Fin W → ℚ) (y x : ℤ)
    (hy0 : 0 ≤ y) (hyH : y < (H : ℤ)) (hx0 : 0 ≤ x) (hxW : x < (W : ℤ)) :
    pixAt H W img y x = img ⟨y.toNat, by omega⟩ ⟨x.toNat, by omega⟩ := by
  rw [pixAt, dif_pos ⟨hy0, hyH⟩, dif_pos ⟨hx0, hxW⟩]

/-- Zero padding to the right of the image. -/
theorem pixAt_oobX (H W : ℕ) (img : Fin H → Fin W → ℚ) (y x : ℤ)
    (hx : (W : ℤ) ≤ x) : pixAt H W img y x = 0 := by
  unfold pixAt
  by_cases hy : 0 ≤ y ∧ y < (H : ℤ)
  · rw [dif_pos hy, dif_neg (by omega)]
  · rw [dif_neg hy]

/-- Zero padding below the image. -/
theorem pixAt_oobY (H W : ℕ) (img : Fin H → Fin W → ℚ) (y x : ℤ)
    (hy : (H : ℤ) ≤ y) : pixAt H W img y x = 0 := by
  unfold pixAt
  rw [dif_neg (by omega)]

/-- A pixel fetch at in-range natural coordinates is the pixel itself. -/
theorem pixAt_coe (H W : ℕ) (img : Fin H → Fin W → ℚ) (i : Fin H) (j : Fin W) :
    pixAt H W img ((i : ℕ) : ℤ) ((j : ℕ) : ℤ) = img i j := by
  rw [pixAt_pos H W img _ _ (Int.natCast_nonneg _) (by exact_mod_cast i.isLt)
    (Int.natCast_nonneg _) (by exact_mod_cast j.isLt)]
  congr 1

/-- Bilinear interpolation at exact integer coordinates returns the
pixel exactly: the fractional parts vanish, so only one corner has a
nonzero weight. -/
theorem bilinear_intCoord (H W : ℕ) (img : Fin H → Fin W → ℚ) (i : Fin H) (j : Fin W) :
    bilinear H W img ((i : ℕ) : ℚ) ((j : ℕ) : ℚ) = img i j := by
  rw [bilinear, Int.floor_natCast, Int.floor_natCast]
  rw [pixAt_coe]
  simp

/-- Round trip of `warp`'s grid normalization and the sampler's
unnormalization: the normalized coordinate built for pixel `k` samples
exactly at pixel `k`, for every spatial extent (including extent 1,
where the code divides by `max(n-1, 1) = 1`). -/
theorem unnormCoord_id (n : ℕ) (k : Fin n) :
    (2 * ((k : ℕ) : ℚ) / max ((n : ℚ) - 1) 1 - 1 + 1) * ((n : ℚ) - 1) / 2 = ((k : ℕ) : ℚ) := by
  rcases Nat.lt_or_ge n 2 with hn | hn
  · interval_cases n
    · exact k.elim0
    · have hk : (k : ℕ) = 0 := by omega
      rw [hk]; norm_num
  · have h1 : (1 : ℚ) ≤ (n : ℚ) - 1 := by
      have h2 : (2 : ℚ) ≤ (n : ℚ) := by exact_mod_cast hn
      linarith
    rw [max_eq_left h1]
    have h0 : (n : ℚ) - 1 ≠ 0 := by linarith
    field_simp

/-- C3: for every input tensor of shape (B,C,H,W), `warp` applied with
the all-zero flow field returns the input unchanged at every pixel of
every channel of every batch item — the sampling grid degenerates to
the identity mesh, bilinear interpolation at exact integer locations
has no border artifacts, and the validity mask is 1 everywhere. -/
theorem C3_warp_zero_flow_identity (B C H W : ℕ)
    (x : Fin B → Fin C → Fin H → Fin W → ℚ)
    (b : Fin B) (c : Fin C) (i : Fin H) (j : Fin W) :
    warp B C H W x (fun _ _ _ _ => 0) b c i j = x b c i j := by
  have hs : warpSample B C H W x (fun _ _ _ _ => 0) b c i j = x b c i j := by
    unfold warpSample sampleAt vgridXn vgridYn
    simp only [add_zero]
    rw [unnormCoord_id, unnormCoord_id, bilinear_intCoord]
  have hm : warpMaskRaw B H W (fun _ _ _ _ => 0) b i j = 1 := by
    unfold warpMaskRaw sampleAt vgridXn vgridYn
    simp only [add_zero]
    rw [unnormCoord_id, unnormCoord_id, bilinear_intCoord]
  rw [warp, warpMask, hs, hm]
  norm_num [maskStep1, maskStep2]

/-- Congruence helper: rewrite the unnormalized sampling coordinates of
`sampleAt` by their values. -/
theorem sampleAt_congr (H W : ℕ) (img : Fin H → Fin W → ℚ) (uy ux py px : ℚ)
    (hy : (uy + 1) * ((H : ℚ) - 1) / 2 = py) (hx : (ux + 1) * ((W : ℚ) - 1) / 2 = px) :
    sampleAt H W img uy ux = bilinear H W img py px := by
  rw [sampleAt, hy, hx]

/-- Evaluation of the boundary sample behind the C4 counterexample: on a
1x2 all-ones image, bilinear sampling at x = 1 + 1/10000 mixes pixel 1
(weight 9999/10000) with the zero padding (weight 1/10000). -/
theorem bilinear_ones_boundary :
    bilinear 1 2 (fun _ _ => (1 : ℚ)) 0 (10001/10000) = 9999/10000 := by
  have hfx : ⌊(10001/10000 : ℚ)⌋ = 1 := by
    rw [Int.floor_eq_iff]
    norm_num
  rw [bilinear, hfx, Int.floor_zero]
  rw [pixAt_pos 1 2 _ 0 1 (by norm_num) (by norm_num) (by norm_num) (by norm_num)]
  rw [pixAt_oobX 1 2 _ 0 (1+1) (by norm_num)]
  rw [pixAt_oobY 1 2 _ (0+1) 1 (by norm_num)]
  rw [pixAt_oobY 1 2 _ (0+1) (1+1) (by norm_num)]
  norm_num

/-- C4 (amended): every mask entry is exactly 0 or exactly 1 after the
two thresholding writes, and an output pixel is kept exactly when its
sampled mask value is at least 0.9999 — a value exactly equal to the
threshold is kept — otherwise the pixel is set to 0; the sampled mask
value does not depend on the channel, so the decision is uniform
across channels. -/
theorem C4_mask_binary_threshold (B C H W : ℕ)
    (x : Fin B → Fin C → Fin H → Fin W → ℚ)
    (flo : Fin B → Fin 2 → Fin H → Fin W → ℚ)
    (b : Fin B) (c : Fin C) (i : Fin H) (j : Fin W) :
    (warpMask B H W flo b i j = 0 ∨ warpMask B H W flo b i j = 1) ∧
      warp B C H W x flo b c i j =
        (if warpMaskRaw B H W flo b i j < 9999/10000 then 0
         else warpSample B C H W x flo b c i j) := by
  by_cases h : warpMaskRaw B H W flo b i j < 9999/10000
  · constructor
    · left
      simp [warpMask, maskStep1, maskStep2, h]
    · simp [warp, warpMask, maskStep1, maskStep2, h]
  · have hpos : (0 : ℚ) < warpMaskRaw B H W flo b i j :=
      lt_of_lt_of_le (by norm_num) (le_of_not_lt h)
    constructor
    · right
      simp [warpMask, maskStep1, maskStep2, h, hpos]
    · simp [warp, warpMask, maskStep1, maskStep2, h, hpos]

/-- C4 counterexample: on a 1x1x1x2 all-ones input with a horizontal
flow of exactly 1/10000, the mask sampled at pixel (0,1) equals the
threshold 0.9999 exactly — it does not exceed it — yet the warped
output there is 9999/10000, not 0: `warp` keeps pixels whose sampled
mask value is exactly 0.9999, so a pixel is not kept only when the
value exceeds 0.9999 as the claim states. -/
theorem C4_counterexample :
    ¬ (9999/10000 : ℚ) <
        warpMaskRaw 1 1 2 (fun _ ch _ _ => if (ch : ℕ) = 0 then 1/10000 else 0) 0 0 1 ∧
      warp 1 1 1 2 (fun _ _ _ _ => 1) (fun _ ch _ _ => if (ch : ℕ) = 0 then 1/10000 else 0)
        0 0 0 1 ≠ 0 := by
  have hm : warpMaskRaw 1 1 2 (fun _ ch _ _ => if (ch : ℕ) = 0 then 1/10000 else 0) 0 0 1
      = 9999/10000 := by
    rw [warpMaskRaw, sampleAt_congr 1 2 _ _ _ 0 (10001/10000)
      (by norm_num [vgridYn]) (by norm_num [vgridXn])]
    exact bilinear_ones_boundary
  have hs : warpSample 1 1 1 2 (fun _ _ _ _ => 1)
      (fun _ ch _ _ => if (ch : ℕ) = 0 then 1/10000 else 0) 0 0 0 1 = 9999/10000 := by
    rw [warpSample, sampleAt_congr 1 2 _ _ _ 0 (10001/10000)
      (by norm_num [vgridYn]) (by norm_num [vgridXn])]
    exact bilinear_ones_boundary
  constructor
  · rw [hm]
    norm_num
  · rw [warp, warpMask, hm, hs]
    norm_num [maskStep1, maskStep2]

/-! ## Motion-vector lemmas -/

/-- C1 counterexample: for the raw regression output (2,0,0,1,0,0) the
returned motion vector's rotation sub-vector — components 0..2, the
slice `get_motion` consumes as the rotation axis — is (2,0,0), whose
L2 norm is 2, not 1: `MotionNet.forward` normalizes the slice
`[:, 3:]` (the one consumed as translation) and passes the rotation
slice through unchanged. -/
theorem C1_counterexample :
    l2norm (motionNetResult ⟨⟨2, 0, 0⟩, ⟨1, 0, 0⟩⟩).rot ≠ 1 := by
  have h : (motionNetResult ⟨⟨2, 0, 0⟩, ⟨1, 0, 0⟩⟩).rot = ⟨2, 0, 0⟩ := rfl
  rw [h]
  have h4 : sqNorm ⟨2, 0, 0⟩ = 4 := by norm_num [sqNorm]
  rw [l2norm, h4, show (4 : ℝ) = 2 ^ 2 by norm_num, Real.sqrt_sq (by norm_num)]
  norm_num

/-- C1 (amended): for every raw regression output, the returned motion
vector's last-3 sub-vector — the slice `[:, 3:]`, the one `get_motion`
consumes as the translation — is L2-normalized (unit norm whenever its
raw norm is at least the normalization epsilon), while the first-3
sub-vector — the slice consumed as the rotation axis — is passed
through unconstrained. -/
theorem C1_last3_normalized (p : MotionVec)
    (h : normalizeEps ^ 2 ≤ sqNorm p.tra) :
    (motionNetResult p).rot = p.rot ∧ l2norm (motionNetResult p).tra = 1 := by
  refine ⟨rfl, ?_⟩
  have hs0 : (0 : ℝ) < sqNorm p.tra := by
    refine lt_of_lt_of_le ?_ h
    rw [normalizeEps]
    positivity
  have hn : 0 < l2norm p.tra := Real.sqrt_pos.mpr hs0
  have heps0 : (0 : ℝ) ≤ normalizeEps := by
    rw [normalizeEps]
    positivity
  have heps : normalizeEps ≤ l2norm p.tra := by
    have h2 := Real.sqrt_le_sqrt h
    rwa [l2norm, ← Real.sqrt_sq heps0]
  have hmax : max (l2norm p.tra) normalizeEps = l2norm p.tra := max_eq_left heps
  have hnn : l2norm p.tra * l2norm p.tra = sqNorm p.tra :=
    Real.mul_self_sqrt (le_of_lt hs0)
  have hne : l2norm p.tra ≠ 0 := ne_of_gt hn
  have hcalc : sqNorm (motionNetResult p).tra = 1 := by
    show sqNorm (fNormalize p.tra) = 1
    rw [fNormalize, hmax]
    show p.tra.x / l2norm p.tra * (p.tra.x / l2norm p.tra)
        + p.tra.y / l2norm p.tra * (p.tra.y / l2norm p.tra)
        + p.tra.z / l2norm p.tra * (p.tra.z / l2norm p.tra) = 1
    have hs : p.tra.x * p.tra.x + p.tra.y * p.tra.y + p.tra.z * p.tra.z = sqNorm p.tra := rfl
    field_simp
    linear_combination hs.trans hnn.symm
  show Real.sqrt (sqNorm (motionNetResult p).tra) = 1
  rw [hcalc, Real.sqrt_one]

/-- C1 witness: the amended statement instantiated at the raw output
(0,0,0,3,4,0), whose last-3 slice has norm 5 well above the epsilon. -/
theorem C1_witness :
    normalizeEps ^ 2 ≤ sqNorm (⟨3, 4, 0⟩ : Vec3) ∧
      ((motionNetResult ⟨⟨0, 0, 0⟩, ⟨3, 4, 0⟩⟩).rot = ⟨0, 0, 0⟩ ∧
        l2norm (motionNetResult ⟨⟨0, 0, 0⟩, ⟨3, 4, 0⟩⟩).tra = 1) := by
  have hh : normalizeEps ^ 2 ≤ sqNorm (⟨3, 4, 0⟩ : Vec3) := by
    norm_num [normalizeEps, sqNorm]
  exact ⟨hh, C1_last3_normalized ⟨⟨0, 0, 0⟩, ⟨3, 4, 0⟩⟩ hh⟩

/-- C2 evaluation at the failing input: a motion vector whose rotation
slice (the axis fed to the conversion) is zero makes the unguarded
axis-angle conversion inside `get_motion` fail — no rotation matrix,
identity or otherwise, is produced for that item. -/
theorem C2_zero_rotation_fails :
    getMotionItem ⟨⟨0, 0, 0⟩, ⟨1, 0, 0⟩⟩ = none := by
  have h0 : sqNorm (⟨0, 0, 0⟩ : Vec3) = 0 := by norm_num [sqNorm]
  rw [getMotionItem, quatFromAxisAngle, if_pos h0]
  rfl

/-! ## Structural theorems about the forward trace -/

/-- C5: for every pyramid level L in {5,4,3,2}, the flow predicted at L
reaches level L-1 exclusively as `scale 2 (upBilinear2 flowL)` —
bilinear upsampling by exactly 2x followed by multiplication by exactly
2.0 — both where it drives the warper or the constrained correlation
and where it enters the decoder's input concatenation; the upsampled
flow's spatial size equals the finer level's own flow resolution. -/
theorem C5_flow_upsampled_and_doubled :
    (warp4E = .warpT c24 (.scale 2 (.upBilinear2 flow5E)) ∧
      x4s0 = .cat corr4E (.cat c14 (.cat (.scale 2 (.upBilinear2 flow5E)) upFeat5E)) ∧
      spatial (.scale 2 (.upBilinear2 flow5E)) = spatial flow4E) ∧
    (warp3E = .warpT c23 (.scale 2 (.upBilinear2 flow4E)) ∧
      x3s0 = .cat corr3E (.cat c13 (.cat (.scale 2 (.upBilinear2 flow4E)) upFeat4E)) ∧
      spatial (.scale 2 (.upBilinear2 flow4E)) = spatial flow3E) ∧
    (corr2E = .leaky (.epiCorr 2 c12 c22 (.motionR motion3E) (.motionT motion3E)
        (.scale 2 (.upBilinear2 flow3E))) ∧
      x2s0 = .cat corr2E (.cat c12 (.cat (.scale 2 (.upBilinear2 flow3E)) upFeat3E)) ∧
      spatial (.scale 2 (.upBilinear2 flow3E)) = spatial flow2E) ∧
    (corr1E = .leaky (.epiCorr 1 c11 c21 (.motionR motion2E) (.motionT motion2E)
        (.scale 2 (.upBilinear2 flow2E))) ∧
      x1s0 = .cat corr1E (.cat c11 (.cat (.scale 2 (.upBilinear2 flow2E)) upFeat2E)) ∧
      spatial (.scale 2 (.upBilinear2 flow2E)) = spatial flow1E) :=
  ⟨⟨rfl, rfl, rfl⟩, ⟨rfl, rfl, rfl⟩, ⟨rfl, rfl, rfl⟩, ⟨rfl, rfl, rfl⟩⟩

/-- C6: each per-level decoder applies exactly 5 convolutions, each
stage concatenating its convolution's output onto the running tensor,
with strictly monotonically growing channel widths across the 5
sub-stages; the accumulated tensor feeds a flow head that is a single
convolution with exactly 2 output channels, a bias, no normalization
and no following nonlinearity. -/
theorem C6_dense_decoders :
    (x5s1 = .cat (.layer .conv5_0 x5s0) x5s0 ∧ x5s2 = .cat (.layer .conv5_1 x5s1) x5s1 ∧
      x5s3 = .cat (.layer .conv5_2 x5s2) x5s2 ∧ x5s4 = .cat (.layer .conv5_3 x5s3) x5s3 ∧
      x5s5 = .cat (.layer .conv5_4 x5s4) x5s4 ∧ flow5E = .layer .predict_flow5 x5s5) ∧
    (x4s1 = .cat (.layer .conv4_0 x4s0) x4s0 ∧ x4s2 = .cat (.layer .conv4_1 x4s1) x4s1 ∧
      x4s3 = .cat (.layer .conv4_2 x4s2) x4s2 ∧ x4s4 = .cat (.layer .conv4_3 x4s3) x4s3 ∧
      x4s5 = .cat (.layer .conv4_4 x4s4) x4s4 ∧ flow4E = .layer .predict_flow4 x4s5) ∧
    (x3s1 = .cat (.layer .conv3_0 x3s0) x3s0 ∧ x3s2 = .cat (.layer .conv3_1 x3s1) x3s1 ∧
      x3s3 = .cat (.layer .conv3_2 x3s2) x3s2 ∧ x3s4 = .cat (.layer .conv3_3 x3s3) x3s3 ∧
      x3s5 = .cat (.layer .conv3_4 x3s4) x3s4 ∧ flow3E = .layer .predict_flow3 x3s5) ∧
    (x2s1 = .cat (.layer .conv2_0 x2s0) x2s0 ∧ x2s2 = .cat (.layer .conv2_1 x2s1) x2s1 ∧
      x2s3 = .cat (.layer .conv2_2 x2s2) x2s2 ∧ x2s4 = .cat (.layer .conv2_3 x2s3) x2s3 ∧
      x2s5 = .cat (.layer .conv2_4 x2s4) x2s4 ∧ flow2E = .layer .predict_flow2 x2s5) ∧
    (x1s1 = .cat (.layer .conv1_0 x1s0) x1s0 ∧ x1s2 = .cat (.layer .conv1_1 x1s1) x1s1 ∧
      x1s3 = .cat (.layer .conv1_2 x1s2) x1s2 ∧ x1s4 = .cat (.layer .conv1_3 x1s3) x1s3 ∧
      x1s5 = .cat (.layer .conv1_4 x1s4) x1s4 ∧ flow1E = .layer .predict_flow1 x1s5) ∧
    ([channels x5s0, channels x5s1, channels x5s2, channels x5s3, channels x5s4,
        channels x5s5] = [209, 337, 433, 497, 529, 561] ∧
      [channels x4s0, channels x4s1, channels x4s2, channels x4s3, channels x4s4,
        channels x4s5] = [181, 309, 405, 469, 501, 533] ∧
      [channels x3s0, channels x3s1, channels x3s2, channels x3s3, channels x3s4,
        channels x3s5] = [149, 277, 373, 437, 469, 501] ∧
      [channels x2s0, channels x2s1, channels x2s2, channels x2s3, channels x2s4,
        channels x2s5] = [85, 181, 245, 309, 341, 373] ∧
      [channels x1s0, channels x1s1, channels x1s2, channels x1s3, channels x1s4,
        channels x1s5] = [45, 109, 173, 237, 269, 301]) ∧
    ((channels x5s0 < channels x5s1 ∧ channels x5s1 < channels x5s2 ∧
        channels x5s2 < channels x5s3 ∧ channels x5s3 < channels x5s4 ∧
        channels x5s4 < channels x5s5) ∧
      (channels x4s0 < channels x4s1 ∧ channels x4s1 < channels x4s2 ∧
        channels x4s2 < channels x4s3 ∧ channels x4s3 < channels x4s4 ∧
        channels x4s4 < channels x4s5) ∧
      (channels x3s0 < channels x3s1 ∧ channels x3s1 < channels x3s2 ∧
        channels x3s2 < channels x3s3 ∧ channels x3s3 < channels x3s4 ∧
        channels x3s4 < channels x3s5) ∧
      (channels x2s0 < channels x2s1 ∧ channels x2s1 < channels x2s2 ∧
        channels x2s2 < channels x2s3 ∧ channels x2s3 < channels x2s4 ∧
        channels x2s4 < channels x2s5) ∧
      (channels x1s0 < channels x1s1 ∧ channels x1s1 < channels x1s2 ∧
        channels x1s2 < channels x1s3 ∧ channels x1s3 < channels x1s4 ∧
        channels x1s4 < channels x1s5)) ∧
    (layerSpecs .predict_flow5 = ⟨561, 2, 3, 1, 1, false, true, false, none⟩ ∧
      layerSpecs .predict_flow4 = ⟨533, 2, 3, 1, 1, false, true, false, none⟩ ∧
      layerSpecs .predict_flow3 = ⟨501, 2, 3, 1, 1, false, true, false, none⟩ ∧
      layerSpecs .predict_flow2 = ⟨373, 2, 3, 1, 1, false, true, false, none⟩ ∧
      layerSpecs .predict_flow1 = ⟨301, 2, 3, 1, 1, false, true, false, none⟩) := by
  refine ⟨⟨rfl, rfl, rfl, rfl, rfl, rfl⟩, ⟨rfl, rfl, rfl, rfl, rfl, rfl⟩,
    ⟨rfl, rfl, rfl, rfl, rfl, rfl⟩, ⟨rfl, rfl, rfl, rfl, rfl, rfl⟩,
    ⟨rfl, rfl, rfl, rfl, rfl, rfl⟩, ⟨by decide, by decide, by decide, by decide, by decide⟩,
    ⟨by decide, by decide, by decide, by decide, by decide⟩,
    ⟨rfl, rfl, rfl, rfl, rfl⟩⟩

/-- C7: the feature pyramid produces, per image, 5 feature maps of
channel widths [16, 32, 64, 96, 128] at successively halved
resolutions (at the configured 256x320 input: 128x160 down to 8x10);
each level is one stride-2 convolution followed by two stride-1
convolutions, every one of the fifteen a 3x3 convolution followed by a
BatchNorm and a LeakyReLU of negative slope 0.1; the two images pass
through the same named modules (shared weights), the traces differing
only in the input leaf. -/
theorem C7_feature_pyramid :
    (c11 = .layer .conv1b (.layer .conv1aa (.layer .conv1a .im1)) ∧
      c21 = .layer .conv1b (.layer .conv1aa (.layer .conv1a .im2)) ∧
      c12 = .layer .conv2b (.layer .conv2aa (.layer .conv2a c11)) ∧
      c22 = .layer .conv2b (.layer .conv2aa (.layer .conv2a c21)) ∧
      c13 = .layer .conv3b (.layer .conv3aa (.layer .conv3a c12)) ∧
      c23 = .layer .conv3b (.layer .conv3aa (.layer .conv3a c22)) ∧
      c14 = .layer .conv4b (.layer .conv4aa (.layer .conv4a c13)) ∧
      c24 = .layer .conv4b (.layer .conv4aa (.layer .conv4a c23)) ∧
      c15 = .layer .conv5b (.layer .conv5aa (.layer .conv5a c14)) ∧
      c25 = .layer .conv5b (.layer .conv5aa (.layer .conv5a c24))) ∧
    ([channels c11, channels c12, channels c13, channels c14, channels c15]
        = [16, 32, 64, 96, 128] ∧
      [channels c21, channels c22, channels c23, channels c24, channels c25]
        = [16, 32, 64, 96, 128]) ∧
    ([spatial c11, spatial c12, spatial c13, spatial c14, spatial c15]
        = [(128, 160), (64, 80), (32, 40), (16, 20), (8, 10)] ∧
      [spatial c21, spatial c22, spatial c23, spatial c24, spatial c25]
        = [(128, 160), (64, 80), (32, 40), (16, 20), (8, 10)]) ∧
    (layerSpecs .conv1a = ⟨3, 16, 3, 2, 1, false, false, true, some (1/10)⟩ ∧
      layerSpecs .conv1aa = ⟨16, 16, 3, 1, 1, false, false, true, some (1/10)⟩ ∧
      layerSpecs .conv1b = ⟨16, 16, 3, 1, 1, false, false, true, some (1/10)⟩ ∧
      layerSpecs .conv2a = ⟨16, 32, 3, 2, 1, false, false, true, some (1/10)⟩ ∧
      layerSpecs .conv2aa = ⟨32, 32, 3, 1, 1, false, false, true, some (1/10)⟩ ∧
      layerSpecs .conv2b = ⟨32, 32, 3, 1, 1, false, false, true, some (1/10)⟩ ∧
      layerSpecs .conv3a = ⟨32, 64, 3, 2, 1, false, false, true, some (1/10)⟩ ∧
      layerSpecs .conv3aa = ⟨64, 64, 3, 1, 1, false, false, true, some (1/10)⟩ ∧
      layerSpecs .conv3b = ⟨64, 64, 3, 1, 1, false, false, true, some (1/10)⟩ ∧
      layerSpecs .conv4a = ⟨64, 96, 3, 2, 1, false, false, true, some (1/10)⟩ ∧
      layerSpecs .conv4aa = ⟨96, 96, 3, 1, 1, false, false, true, some (1/10)⟩ ∧
      layerSpecs .conv4b = ⟨96, 96, 3, 1, 1, false, false, true, some (1/10)⟩ ∧
      layerSpecs .conv5a = ⟨96, 128, 3, 2, 1, false, false, true, some (1/10)⟩ ∧
      layerSpecs .conv5aa = ⟨128, 128, 3, 1, 1, false, false, true, some (1/10)⟩ ∧
      layerSpecs .conv5b = ⟨128, 128, 3, 1, 1, false, false, true, some (1/10)⟩) := by
  refine ⟨⟨rfl, rfl, rfl, rfl, rfl, rfl, rfl, rfl, rfl, rfl⟩, ⟨?_, ?_⟩, ⟨?_, ?_⟩,
    rfl, rfl, rfl, rfl, rfl, rfl, rfl, rfl, rfl, rfl, rfl, rfl, rfl, rfl, rfl⟩ <;> rfl

/-- C8: `forward` returns exactly two lists — five flow fields ordered
finest to coarsest (levels 1..5, with strictly shrinking spatial sizes
and 2 channels each) and three motion vectors ordered finest first
(the heads of levels 1, 2 and 3, each a 6-vector). -/
theorem C8_forward_output_lists :
    forwardFlows = [flow1E, flow2E, flow3E, flow4E, flow5E] ∧
    forwardFlows.length = 5 ∧
    forwardFlows.map channels = [2, 2, 2, 2, 2] ∧
    forwardFlows.map spatial = [(128, 160), (64, 80), (32, 40), (16, 20), (8, 10)] ∧
    forwardMotions = [.motionHead 1 x1s5 flow1E, .motionHead 2 x2s5 flow2E,
      .motionHead 3 x3s5 flow3E] ∧
    forwardMotions.length = 3 ∧
    forwardMotions.map channels = [6, 6, 6] :=
  ⟨rfl, rfl, rfl, rfl, rfl, rfl, rfl⟩

set_option maxRecDepth 4000 in
/-- C9: after the initialization loop, every `Conv2d` and
`ConvTranspose2d` leaf module of the network carries the fan-in-scaled
Kaiming-normal weight initialization, and every such module that has a
bias has it zeroed; the flat module list contains 72 convolutions and 4
transposed convolutions, the motion heads' convolutions among them. -/
theorem C9_weight_initialization :
    (initializedMods.all fun m =>
      if m.kind = MKind.conv2d ∨ m.kind = MKind.convT then
        m.kaimingFanIn && (!m.hasBias || m.biasZeroed)
      else true) = true ∧
    (initializedMods.countP fun m => m.kind = MKind.conv2d) = 72 ∧
    (initializedMods.countP fun m => m.kind = MKind.convT) = 4 := by
  refine ⟨?_, ?_, ?_⟩ <;> decide

/-- C10: `MotionNet.__init__` overwrites the first element of the
caller's `conv_sizes` list in place with 32 + 4 = 36, so for each of
the three actual construction calls (whose decoder widths 501, 373 and
301 are the channel widths of the final accumulated decoder tensors)
the caller's list is no longer equal to the list it passed in. -/
theorem C10_conv_sizes_mutated :
    (∀ (c0 : ℕ) (rest : List ℕ), motionNetInitConvSizes (c0 :: rest) = (32 + 4) :: rest) ∧
    (motionNetInitConvSizes [channels x3s5, 64, 128, 256] = [36, 64, 128, 256] ∧
      motionNetInitConvSizes [channels x3s5, 64, 128, 256] ≠ [channels x3s5, 64, 128, 256]) ∧
    (motionNetInitConvSizes [channels x2s5, 64, 128, 256, 512] = [36, 64, 128, 256, 512] ∧
      motionNetInitConvSizes [channels x2s5, 64, 128, 256, 512]
        ≠ [channels x2s5, 64, 128, 256, 512]) ∧
    (motionNetInitConvSizes [channels x1s5, 64, 128, 256, 512, 512]
        = [36, 64, 128, 256, 512, 512] ∧
      motionNetInitConvSizes [channels x1s5, 64, 128, 256, 512, 512]
        ≠ [channels x1s5, 64, 128, 256, 512, 512]) := by
  refine ⟨fun c0 rest => rfl, ⟨?_, ?_⟩, ⟨?_, ?_⟩, ⟨?_, ?_⟩⟩ <;> decide

/-- Consistency of the layer table with the forward trace: every
convolution's declared input width equals the channel width of the
tensor expression `forward` applies it to (the shape compatibility
PyTorch checks at the first forward pass). -/
theorem layer_table_trace_consistent :
    ((layerSpecs .conv1a).inC = channels .im1 ∧
      (layerSpecs .conv1aa).inC = channels (.layer .conv1a .im1) ∧
      (layerSpecs .conv1b).inC = channels (.layer .conv1aa (.layer .conv1a .im1)) ∧
      (layerSpecs .conv2a).inC = channels c11 ∧
      (layerSpecs .conv2aa).inC = channels (.layer .conv2a c11) ∧
      (layerSpecs .conv2b).inC = channels (.layer .conv2aa (.layer .conv2a c11)) ∧
      (layerSpecs .conv3a).inC = channels c12 ∧
      (layerSpecs .conv3aa).inC = channels (.layer .conv3a c12) ∧
      (layerSpecs .conv3b).inC = channels (.layer .conv3aa (.layer .conv3a c12)) ∧
      (layerSpecs .conv4a).inC = channels c13 ∧
      (layerSpecs .conv4aa).inC = channels (.layer .conv4a c13) ∧
      (layerSpecs .conv4b).inC = channels (.layer .conv4aa (.layer .conv4a c13)) ∧
      (layerSpecs .conv5a).inC = channels c14 ∧
      (layerSpecs .conv5aa).inC = channels (.layer .conv5a c14) ∧
      (layerSpecs .conv5b).inC = channels (.layer .conv5aa (.layer .conv5a c14))) ∧
    ((layerSpecs .conv5_0).inC = channels x5s0 ∧
      (layerSpecs .conv5_1).inC = channels x5s1 ∧
      (layerSpecs .conv5_2).inC = channels x5s2 ∧
      (layerSpecs .conv5_3).inC = channels x5s3 ∧
      (layerSpecs .conv5_4).inC = channels x5s4 ∧
      (layerSpecs .predict_flow5).inC = channels x5s5 ∧
      (layerSpecs .upfeat5).inC = channels x5s5) ∧
    ((layerSpecs .conv4_0).inC = channels x4s0 ∧
      (layerSpecs .conv4_1).inC = channels x4s1 ∧
      (layerSpecs .conv4_2).inC = channels x4s2 ∧
      (layerSpecs .conv4_3).inC = channels x4s3 ∧
      (layerSpecs .conv4_4).inC = channels x4s4 ∧
      (layerSpecs .predict_flow4).inC = channels x4s5 ∧
      (layerSpecs .upfeat4).inC = channels x4s5) ∧
    ((layerSpecs .conv3_0).inC = channels x3s0 ∧
      (layerSpecs .conv3_1).inC = channels x3s1 ∧
      (layerSpecs .conv3_2).inC = channels x3s2 ∧
      (layerSpecs .conv3_3).inC = channels x3s3 ∧
      (layerSpecs .conv3_4).inC = channels x3s4 ∧
      (layerSpecs .predict_flow3).inC = channels x3s5 ∧
      (layerSpecs .upfeat3).inC = channels x3s5) ∧
    ((layerSpecs .conv2_0).inC = channels x2s0 ∧
      (layerSpecs .conv2_1).inC = channels x2s1 ∧
      (layerSpecs .conv2_2).inC = channels x2s2 ∧
      (layerSpecs .conv2_3).inC = channels x2s3 ∧
      (layerSpecs .conv2_4).inC = channels x2s4 ∧
      (layerSpecs .predict_flow2).inC = channels x2s5 ∧
      (layerSpecs .upfeat2).inC = channels x2s5) ∧
    ((layerSpecs .conv1_0).inC = channels x1s0 ∧
      (layerSpecs .conv1_1).inC = channels x1s1 ∧
      (layerSpecs .conv1_2).inC = channels x1s2 ∧
      (layerSpecs .conv1_3).inC = channels x1s3 ∧
      (layerSpecs .conv1_4).inC = channels x1s4 ∧
      (layerSpecs .predict_flow1).inC = channels x1s5) := by
  refine ⟨?_, ?_, ?_, ?_, ?_, ?_⟩ <;> decide

end FlowMotion
